import Mathlib

/-!
Verification development for the deadline-cloud asset-synchronization client.

The development shallowly embeds:
* `TelemetryClient._send_request` and its retry/backoff policy, and the
  opt-out behaviour of `TelemetryClient` (from
  `src/deadline/client/api/_telemetry.py`);
* the human-readable file-size formatter, the canonical asset-manifest
  encoding, the input/output synchronization orchestrators and the lookup
  helpers of the job-attachments engine.  The engine's own source file is
  not part of this excerpt, so those definitions are modelled from the
  specification, with concrete behaviour (canonical entry order, object-key
  layout, path-mapping rules) pinned by the repository's unit tests in
  `test/unit/deadline_job_attachments/test_asset_sync.py`.
-/

namespace DeadlineCloud

/-! ## Job-attachments data model and synchronization engine

Modelled from the spec: the `deadline.job_attachments` sources
(`asset_sync.py`, `models.py`, `_utils.py`, the manifest codec and the
transfer layer) are not part of this repository excerpt; only their unit
tests are.  Each definition below follows the specification, with the
concrete behaviour the unit tests pin (canonical manifest entry order,
output object-key layout, returned path-mapping rules, the size-format
table) taken from `test_asset_sync.py`. -/

namespace JobAttachments

/-- Modelled from the spec: `SummaryStatistics` of
`progress_tracker.py` (field names as in the tests). -/
structure SummaryStatistics where
  total_time : ℚ
  total_files : Nat
  total_bytes : Nat
  processed_files : Nat
  processed_bytes : Nat
  skipped_files : Nat
  skipped_bytes : Nat
  transfer_rate : ℚ
deriving DecidableEq

/-- Modelled from the spec: `PathFormat` (POSIX or WINDOWS) of `models.py`. -/
inductive PathFormat where
  | posix : PathFormat
  | windows : PathFormat
deriving DecidableEq

/-- The lower-case wire name of a path format, as the path-mapping rules
report it. -/
def PathFormat.toStr : PathFormat → String
  | .posix => "posix"
  | .windows => "windows"

/-- Modelled from the spec: `ManifestProperties` of `models.py` (one per
logical root a job references). -/
structure ManifestProperties where
  rootPath : String
  rootPathFormat : PathFormat
  fileSystemLocationName : Option String
  inputManifestPath : Option String
  outputRelativeDirectories : List String
deriving DecidableEq

/-- Modelled from the spec: the job-attachments file-system mode, copied
(eager download) or virtual (VFS mount). -/
inductive FileSystemMode where
  | copied : FileSystemMode
  | virtualized : FileSystemMode
deriving DecidableEq

/-- Modelled from the spec: `Attachments` of `models.py` — the ordered
list of manifest properties for a job plus the requested file-system
mode. -/
structure Attachments where
  manifests : List ManifestProperties
  fileSystem : FileSystemMode
deriving DecidableEq

/-- Modelled from the spec: `JobAttachmentS3Settings` of `models.py`.
`rootDir` models the settings' root object-key namespace (named
`rootPrefix` in the Python source; "assetRoot" throughout the tests). -/
structure JobAttachmentS3Settings where
  s3BucketName : String
  rootDir : String
deriving DecidableEq

/-- Content-addressed-data area of the store: "assetRoot/Data" in the
tests. -/
def casPath (s : JobAttachmentS3Settings) : String := s.rootDir ++ "/Data"

/-- Manifest area of the store: "assetRoot/Manifests" in the tests. -/
def manifestPath (s : JobAttachmentS3Settings) : String := s.rootDir ++ "/Manifests"

/-- Modelled from the spec: `Job` of `models.py`, carrying optional
attachments. -/
structure Job where
  jobId : String
  attachments : Option Attachments
deriving DecidableEq

/-- Modelled from the spec: `Queue` of `models.py`, carrying optional
job-attachment S3 settings. -/
structure Queue where
  queueId : String
  displayName : String
  farmId : String
  jobAttachmentSettings : Option JobAttachmentS3Settings
deriving DecidableEq

/-- Modelled from the spec: `AssetSync.get_attachments` — look the job up
through the metadata collaborator (`get_job`, abstracted as an oracle) and
return its attachments, or `none` when the job or its attachments are
absent. -/
def get_attachments (get_job : String → String → String → Option Job)
    (farm_id queue_id job_id : String) : Option Attachments :=
  match get_job farm_id queue_id job_id with
  | none => none
  | some j => j.attachments

/-- Modelled from the spec: `AssetSync.get_s3_settings` — look the queue
up through the metadata collaborator (`get_queue`, abstracted as an
oracle) and return its job-attachment settings, or `none` when the queue
or its settings are absent. -/
def get_s3_settings (get_queue : String → String → Option Queue)
    (farm_id queue_id : String) : Option JobAttachmentS3Settings :=
  match get_queue farm_id queue_id with
  | none => none
  | some q => q.jobAttachmentSettings

/-- Modelled from the spec: one manifest path entry — relative path,
content hash, size in bytes and modification time in microseconds. -/
structure ManifestPathEntry where
  path : String
  hash : String
  size : Nat
  mtime : Nat
deriving DecidableEq

/-- Canonical JSON of a single manifest path entry, exactly as the test
`test_sync_outputs` pins it. -/
def encodePathEntry (e : ManifestPathEntry) : String :=
  "\x7b\"hash\":\"" ++ e.hash ++ "\",\"mtime\":" ++ toString e.mtime ++
    ",\"path\":\"" ++ e.path ++ "\",\"size\":" ++ toString e.size ++ "\x7d"

/-- Lexicographic less-or-equal on character sequences, comparing Unicode
code points — the order Python's string comparison (and hence its sort
keyed on the path string) uses. -/
def lexLeChars : List Char → List Char → Bool
  | [], _ => true
  | _ :: _, [] => false
  | a :: as, b :: bs =>
    if a.toNat < b.toNat then true
    else if b.toNat < a.toNat then false
    else lexLeChars as bs

/-- Lexicographic string comparison by code point. -/
def pathLe (a b : String) : Bool := lexLeChars a.data b.data

/-- Canonical order of manifest entries: by relative path (pinned by the
expected manifest bytes in `test_sync_outputs`). -/
def entryLE (a b : ManifestPathEntry) : Prop := pathLe a.path b.path = true

instance : DecidableRel entryLE := fun a b =>
  inferInstanceAs (Decidable (pathLe a.path b.path = true))

/-- Sort manifest entries into canonical order. -/
def sortEntries (es : List ManifestPathEntry) : List ManifestPathEntry :=
  es.insertionSort entryLE

/-- The order the claim attributes to the canonical serialization: by
content hash first, then by path.  Stated from the spec's words, for
comparison against `sortEntries`. -/
def entryLEByHash (a b : ManifestPathEntry) : Prop :=
  (if a.hash = b.hash then pathLe a.path b.path else pathLe a.hash b.hash) = true

instance : DecidableRel entryLEByHash := fun a b =>
  inferInstanceAs (Decidable (_ = true))

/-- Canonical manifest serialization (schema 2023-03-03): entries sorted
into canonical order, `totalSize` the sum of the entry sizes, byte layout
exactly as the expected manifest of `test_sync_outputs`. -/
def encodeManifest (hash_alg : String) (es : List ManifestPathEntry) : String :=
  "\x7b\"hashAlg\":\"" ++ hash_alg ++ "\",\"manifestVersion\":\"2023-03-03\",\"paths\":[" ++
    String.intercalate "," ((sortEntries es).map encodePathEntry) ++
    "],\"totalSize\":" ++ toString (es.map (fun e => e.size)).sum ++ "\x7d"

/-- The serialization the claim describes, with entries sorted by content
hash then path; stated from the spec's words for comparison against
`encodeManifest`. -/
def encodeManifestByHash (hash_alg : String) (es : List ManifestPathEntry) : String :=
  "\x7b\"hashAlg\":\"" ++ hash_alg ++ "\",\"manifestVersion\":\"2023-03-03\",\"paths\":[" ++
    String.intercalate "," ((es.insertionSort entryLEByHash).map encodePathEntry) ++
    "],\"totalSize\":" ++ toString (es.map (fun e => e.size)).sum ++ "\x7d"

/-- Modelled from the spec: the object key under which `sync_outputs`
uploads the output manifest.  The layout is pinned by the
`expected_output_prefix` of `test_sync_outputs`:
`<manifests>/<farm>/<queue>/<job>/<step>/<task>/<isoTimestamp>_<sessionAction>/<manifestHash>_output.<hashAlg>`. -/
def output_manifest_key (s : JobAttachmentS3Settings)
    (farm_id queue_id job_id step_id task_id session_action_id iso_timestamp
      manifest_hash hash_alg : String) : String :=
  manifestPath s ++ "/" ++ farm_id ++ "/" ++ queue_id ++ "/" ++ job_id ++ "/" ++
    step_id ++ "/" ++ task_id ++ "/" ++ iso_timestamp ++ "_" ++ session_action_id ++
    "/" ++ manifest_hash ++ "_output." ++ hash_alg

/-- The key layout the claim describes, with the session-action identifier
before the timestamp; stated from the spec's words for comparison against
`output_manifest_key`. -/
def output_manifest_key_claimed (s : JobAttachmentS3Settings)
    (farm_id queue_id job_id step_id task_id session_action_id iso_timestamp
      manifest_hash hash_alg : String) : String :=
  manifestPath s ++ "/" ++ farm_id ++ "/" ++ queue_id ++ "/" ++ job_id ++ "/" ++
    step_id ++ "/" ++ task_id ++ "/" ++ session_action_id ++ "_" ++ iso_timestamp ++
    "/" ++ manifest_hash ++ "_output." ++ hash_alg

/-- Transfer rate in bytes per second: processed bytes over elapsed time,
zero when nothing was processed or no time elapsed. -/
def transfer_rate (processed_bytes : Nat) (total_time : ℚ) : ℚ :=
  if total_time = 0 then 0 else processed_bytes / total_time

/-- Result of a `sync_outputs` run: the content hashes uploaded to the
data area (each stored under `casPath/<hash>`), the manifest object key
and body, and the summary statistics. -/
structure SyncOutputsResult where
  content_uploads : List String
  manifest_key : String
  manifest_body : String
  stats : SummaryStatistics
deriving DecidableEq

/-- Modelled from the spec: `AssetSync.sync_outputs`.  The walk of the
declared output directories and the content hasher are abstracted into
`files`, the discovered output files with their hashes; `existing` is the
set of content hashes already present in the store (the transfer layer's
existence check); `hash_data` hashes the encoded manifest.  Each file
whose hash exists is skipped, the rest are uploaded and counted as
processed; the canonical manifest of all discovered files is uploaded
under `output_manifest_key`. -/
def sync_outputs (s : JobAttachmentS3Settings)
    (farm_id queue_id job_id step_id task_id session_action_id iso_timestamp
      hash_alg : String)
    (existing : List String) (files : List ManifestPathEntry)
    (hash_data : String → String) (total_time : ℚ) : SyncOutputsResult :=
  let skipped := files.filter fun f => existing.contains f.hash
  let processed := files.filter fun f => !existing.contains f.hash
  let body := encodeManifest hash_alg files
  { content_uploads := processed.map fun f => f.hash
    manifest_key := output_manifest_key s farm_id queue_id job_id step_id task_id
      session_action_id iso_timestamp (hash_data body) hash_alg
    manifest_body := body
    stats :=
      { total_time := total_time
        total_files := files.length
        total_bytes := (files.map fun f => f.size).sum
        processed_files := processed.length
        processed_bytes := (processed.map fun f => f.size).sum
        skipped_files := skipped.length
        skipped_bytes := (skipped.map fun f => f.size).sum
        transfer_rate := transfer_rate (processed.map fun f => f.size).sum total_time } }

/-- Modelled from the spec: the error taxonomy surfaced by the engine. -/
inductive SyncError where
  | manifestDecode : SyncError
  | transferExhausted : SyncError
  | transferFatal : SyncError
deriving DecidableEq

/-- Modelled from the spec: a path-mapping rule, one per resolved root
(field names as the tests check them). -/
structure PathMappingRule where
  source_path_format : String
  source_path : String
  destination_path : String
deriving DecidableEq

/-- A manifest-properties entry is covered by the storage-profile
path-mapping overrides when it names a file-system location and its root
path appears in the override map. -/
def coveredByStorageProfile (storage_rules : List (String × String))
    (m : ManifestProperties) : Bool :=
  match m.fileSystemLocationName with
  | some _ => (storage_rules.lookup m.rootPath).isSome
  | none => false

/-- Modelled from the spec: the path-mapping rules `sync_inputs` returns —
one per manifest root resolved into the session directory (roots redirected
by a storage-profile override are downloaded to the override destination
and yield no returned rule, as `test_sync_inputs_with_storage_profiles_path_mapping_rules`
pins). `dest_dir_name` abstracts `_get_unique_dest_dir_name`. -/
def input_mapping_rules (session_dir : String)
    (dest_dir_name : ManifestProperties → String)
    (storage_rules : List (String × String))
    (ms : List ManifestProperties) : List PathMappingRule :=
  (ms.filter fun m => !coveredByStorageProfile storage_rules m).map fun m =>
    { source_path_format := m.rootPathFormat.toStr
      source_path := m.rootPath
      destination_path := session_dir ++ "/" ++ dest_dir_name m }

/-- Fetch and decode the input manifest of every manifest-properties entry
that declares one, concatenating their entries; a fetch/decode failure
propagates. -/
def gather_entries (fetch : String → Except SyncError (List ManifestPathEntry)) :
    List ManifestProperties → Except SyncError (List ManifestPathEntry)
  | [] => .ok []
  | m :: rest => do
    let tail ← gather_entries fetch rest
    match m.inputManifestPath with
    | none => .ok tail
    | some p => do
      let es ← fetch p
      return es ++ tail

/-- Modelled from the spec: the statistics of an eager download of
`entries`, skipping files whose content hash is already present locally
(`present`). -/
def download_stats (entries : List ManifestPathEntry) (present : List String)
    (total_time : ℚ) : SummaryStatistics :=
  let skipped := entries.filter fun f => present.contains f.hash
  let processed := entries.filter fun f => !present.contains f.hash
  { total_time := total_time
    total_files := entries.length
    total_bytes := (entries.map fun f => f.size).sum
    processed_files := processed.length
    processed_bytes := (processed.map fun f => f.size).sum
    skipped_files := skipped.length
    skipped_bytes := (skipped.map fun f => f.size).sum
    transfer_rate := transfer_rate (processed.map fun f => f.size).sum total_time }

/-- The all-zero summary statistics of a sync that moved nothing. -/
def zeroStats (total_time : ℚ) : SummaryStatistics :=
  ⟨total_time, 0, 0, 0, 0, 0, 0, 0⟩

/-- Result of a `sync_inputs` run: summary statistics, returned
path-mapping rules, and whether a virtual filesystem was mounted. -/
structure SyncInputsResult where
  stats : SummaryStatistics
  rules : List PathMappingRule
  mounted : Bool
deriving DecidableEq

/-- Modelled from the spec: `AssetSync.sync_inputs`.  Oracles abstract the
external collaborators: `dest_dir_name` the stable local directory naming,
`fetch` the manifest download/decode, `fus3_available` whether the VFS
mount helper can be located (`Fus3ProcessManager.find_fus3`), `on_linux`
the host platform check, `present` the content hashes already on local
disk.  A job requesting the virtual file system mounts it only when the
helper is available on a supported platform; otherwise — in particular
when the helper is missing — the engine falls back to eager download and
still succeeds. -/
def sync_inputs (s : JobAttachmentS3Settings) (attachments : Attachments)
    (queue_id job_id session_dir : String)
    (dest_dir_name : ManifestProperties → String)
    (fetch : String → Except SyncError (List ManifestPathEntry))
    (storage_rules : List (String × String))
    (fus3_available on_linux : Bool)
    (present : List String) (total_time : ℚ) :
    Except SyncError SyncInputsResult := do
  let entries ← gather_entries fetch attachments.manifests
  let rules := input_mapping_rules session_dir dest_dir_name storage_rules
    attachments.manifests
  if attachments.fileSystem = .virtualized ∧ fus3_available ∧ on_linux then
    return ⟨zeroStats total_time, rules, true⟩
  else
    return ⟨download_stats entries present total_time, rules, false⟩

/-- Round `n / 1000 ^ k` to centi-units (two decimal places, halves up):
`⌊100 * n / 1000 ^ k + 1 / 2⌋` computed in integer arithmetic. -/
def roundCenti (n k : Nat) : Nat := (200 * n + 1000 ^ k) / (2 * 1000 ^ k)

/-- Render a centi-unit count as Python renders the corresponding rounded
float: at least one fractional digit, no trailing zero in the second
fractional place. -/
def formatCenti (c : Nat) : String :=
  let fr := c % 100
  toString (c / 100) ++ "." ++
    (if fr % 10 = 0 then toString (fr / 10)
     else if fr < 10 then "0" ++ toString fr
     else toString fr)

/-- Step through the decimal units until the value rounds below 1000 (or
the units run out). -/
def sizeLoop (n : Nat) : List String → Nat → String
  | [], k => formatCenti (roundCenti n k)
  | [u], k => formatCenti (roundCenti n k) ++ " " ++ u
  | u :: rest, k =>
    if roundCenti n k < 100000 then formatCenti (roundCenti n k) ++ " " ++ u
    else sizeLoop n rest (k + 1)

/-- Modelled from the spec: `_human_readable_file_size` of `_utils.py` —
decimal (power-of-1000) units with two-decimal rounding and a `.0`
minimum, the exact table being pinned by `test_human_readable_file_size`. -/
def human_readable_file_size (n : Nat) : String :=
  sizeLoop n ["B", "KB", "MB", "GB", "TB", "PB"] 0

end JobAttachments

/-! ## Telemetry retry policy (`TelemetryClient._send_request`) -/

namespace Telemetry

/-- Result of one `urlopen` attempt, as observed by `_send_request`:
success, an `HTTPError` carrying a status code, or any other exception. -/
inductive AttemptResult where
  | success : AttemptResult
  | httpError (code : Nat) : AttemptResult
  | otherError : AttemptResult
deriving DecidableEq

/-- Final outcome of `_send_request`: normal return, the
`Exception("Max retries reached sending telemetry")` raised when the retry
budget is exceeded, an `HTTPError` re-raised because its code is not
retryable, or a re-raised non-HTTP exception. -/
inductive Outcome where
  | success : Outcome
  | exhausted : Outcome
  | fatalHttp (code : Nat) : Outcome
  | fatalOther : Outcome
deriving DecidableEq

/-- `TelemetryClient.MAX_RETRY_ATTEMPTS` from `_telemetry.py`. -/
def MAX_RETRY_ATTEMPTS : Nat := 4

/-- `TelemetryClient.BASE_TIME` from `_telemetry.py` (0.5 seconds). -/
def BASE_TIME : ℚ := 1 / 2

/-- `TelemetryClient.MAX_BACKOFF_SECONDS` from `_telemetry.py`. -/
def MAX_BACKOFF_SECONDS : ℚ := 10

/-- Aggregate result of a `_send_request` run: the outcome, the list of
sleep durations (one per backoff executed before a retry) and the number
of `urlopen` attempts made. -/
structure SendResult where
  outcome : Outcome
  sleeps : List ℚ
  numAttempts : Nat
deriving DecidableEq

/-- The `while not success` loop of `_send_request`, embedded over an
oracle `resp` giving the result of the `i`-th `urlopen` call and an oracle
`uniform` modelling `random.uniform`.  `attempts` is the running counter of
retryable failures; on each retryable HTTP error (code 429 or 500) the code
increments the counter, raises once `MAX_RETRY_ATTEMPTS` is reached, and
otherwise sleeps `uniform 0 (min MAX_BACKOFF_SECONDS (BASE_TIME * 2 ^
attempts))` with the incremented counter before retrying.  Every other
exception propagates at once. -/
def sendRequestFrom (uniform : ℚ → ℚ → ℚ) (resp : Nat → AttemptResult)
    (idx attempts : Nat) : SendResult :=
  match resp idx with
  | .success => ⟨.success, [], 1⟩
  | .otherError => ⟨.fatalOther, [], 1⟩
  | .httpError c =>
    if c = 429 ∨ c = 500 then
      if MAX_RETRY_ATTEMPTS ≤ attempts + 1 then ⟨.exhausted, [], 1⟩
      else
        let bound : ℚ := min MAX_BACKOFF_SECONDS (BASE_TIME * 2 ^ (attempts + 1))
        let rest := sendRequestFrom uniform resp (idx + 1) (attempts + 1)
        ⟨rest.outcome, uniform 0 bound :: rest.sleeps, rest.numAttempts + 1⟩
    else ⟨.fatalHttp c, [], 1⟩
termination_by MAX_RETRY_ATTEMPTS - attempts
decreasing_by
  simp only [MAX_RETRY_ATTEMPTS] at *
  omega

/-- `_send_request` starts the loop with no attempts made. -/
def sendRequest (uniform : ℚ → ℚ → ℚ) (resp : Nat → AttemptResult) : SendResult :=
  sendRequestFrom uniform resp 0 0

/-- An attempt result is in the retryable class exactly when it is an
HTTP error with code 429 or 500. -/
def retryable (a : AttemptResult) : Prop :=
  a = .httpError 429 ∨ a = .httpError 500

/-- `TelemetryClient.MAX_QUEUE_SIZE` from `_telemetry.py`. -/
def MAX_QUEUE_SIZE : Nat := 25

/-- A telemetry event: the `TelemetryEvent` dataclass of `_telemetry.py`,
with the details dict modelled as an association list. -/
structure TelemetryEvent where
  event_type : String
  event_details : List (String × String)
deriving DecidableEq

/-- Observable state of a `TelemetryClient`: whether the user opted out,
the bounded event queue (created only by `_start_threads`), and whether
the background processing thread was started. -/
structure TelemetryClient where
  telemetry_opted_out : Bool
  event_queue : Option (List TelemetryEvent)
  processing_thread_started : Bool
deriving DecidableEq

/-- `TelemetryClient.__init__`: when the configuration opts out of
telemetry the constructor returns before creating the queue or starting
the background thread; otherwise `_start_threads` creates the queue and
starts the daemon thread. -/
def initTelemetryClient (opt_out : Bool) : TelemetryClient :=
  if opt_out then ⟨true, none, false⟩ else ⟨false, some [], true⟩

/-- `TelemetryClient._put_telemetry_record`: a no-op when opted out;
otherwise enqueue unless the queue is full (`queue.Full` is swallowed). -/
def put_telemetry_record (c : TelemetryClient) (e : TelemetryEvent) : TelemetryClient :=
  if c.telemetry_opted_out then c
  else
    match c.event_queue with
    | none => c
    | some q =>
      if MAX_QUEUE_SIZE ≤ q.length then c
      else { c with event_queue := some (q ++ [e]) }

/-- `TelemetryClient.record_event`. -/
def record_event (c : TelemetryClient) (event_type : String)
    (event_details : List (String × String)) : TelemetryClient :=
  put_telemetry_record c ⟨event_type, event_details⟩

/-- `TelemetryClient.record_error`: tags the details with the exception
type and records a `com.amazon.rum.deadline.error` event. -/
def record_error (c : TelemetryClient) (event_details : List (String × String))
    (exception_type : String) : TelemetryClient :=
  record_event c "com.amazon.rum.deadline.error"
    (event_details ++ [("exception_type", exception_type)])

/-- The `asdict` of a `SummaryStatistics` plus the usage mode, as
`_record_summary_statistics` builds the event details. -/
def summaryDetails (s : JobAttachments.SummaryStatistics) (from_gui : Bool) :
    List (String × String) :=
  [("total_time", toString s.total_time),
   ("total_files", toString s.total_files),
   ("total_bytes", toString s.total_bytes),
   ("processed_files", toString s.processed_files),
   ("processed_bytes", toString s.processed_bytes),
   ("skipped_files", toString s.skipped_files),
   ("skipped_bytes", toString s.skipped_bytes),
   ("transfer_rate", toString s.transfer_rate),
   ("usage_mode", if from_gui then "GUI" else "CLI")]

/-- `TelemetryClient.record_hashing_summary`. -/
def record_hashing_summary (c : TelemetryClient)
    (summary : JobAttachments.SummaryStatistics) (from_gui : Bool) : TelemetryClient :=
  put_telemetry_record c
    ⟨"com.amazon.rum.deadline.job_attachments.hashing_summary",
      summaryDetails summary from_gui⟩

/-- `TelemetryClient.record_upload_summary`. -/
def record_upload_summary (c : TelemetryClient)
    (summary : JobAttachments.SummaryStatistics) (from_gui : Bool) : TelemetryClient :=
  put_telemetry_record c
    ⟨"com.amazon.rum.deadline.job_attachments.upload_summary",
      summaryDetails summary from_gui⟩

theorem sendRequestFrom_exhaust (uniform : ℚ → ℚ → ℚ) (resp : Nat → AttemptResult)
    (idx attempts c : Nat) (h : resp idx = .httpError c) (hc : c = 429 ∨ c = 500)
    (ha : MAX_RETRY_ATTEMPTS ≤ attempts + 1) :
    sendRequestFrom uniform resp idx attempts = ⟨.exhausted, [], 1⟩ := by
  rw [sendRequestFrom, h]
  simp [hc, ha]

theorem sendRequestFrom_retry_step (uniform : ℚ → ℚ → ℚ) (resp : Nat → AttemptResult)
    (idx attempts c : Nat) (h : resp idx = .httpError c) (hc : c = 429 ∨ c = 500)
    (ha : attempts + 1 < MAX_RETRY_ATTEMPTS) :
    sendRequestFrom uniform resp idx attempts =
      ⟨(sendRequestFrom uniform resp (idx + 1) (attempts + 1)).outcome,
        uniform 0 (min MAX_BACKOFF_SECONDS (BASE_TIME * 2 ^ (attempts + 1))) ::
          (sendRequestFrom uniform resp (idx + 1) (attempts + 1)).sleeps,
        (sendRequestFrom uniform resp (idx + 1) (attempts + 1)).numAttempts + 1⟩ := by
  rw [sendRequestFrom, h]
  simp [hc, Nat.not_le.mpr ha]

end Telemetry

end DeadlineCloud

namespace DeadlineCloud

open Telemetry in
/-- C1: a store client that returns a retryable-class error (HTTP 429 or
500) on every attempt causes exactly `MAX_RETRY_ATTEMPTS` (4) attempts and
then the retry-exhausted failure, with a sleep before each of the three
retries drawn from `[0, min(10, 0.5 * 2 ^ attempts)]`; any non-retryable
failure (an HTTP error with another code, or a non-HTTP exception) causes
exactly one attempt and propagates immediately with no sleeps. -/
theorem send_request_retry_policy (uniform : ℚ → ℚ → ℚ)
    (hu : ∀ b : ℚ, 0 ≤ b → 0 ≤ uniform 0 b ∧ uniform 0 b ≤ b) :
    (∀ resp : Nat → AttemptResult, (∀ i, retryable (resp i)) →
      (sendRequest uniform resp).outcome = .exhausted ∧
      (sendRequest uniform resp).numAttempts = MAX_RETRY_ATTEMPTS ∧
      (sendRequest uniform resp).sleeps.length = MAX_RETRY_ATTEMPTS - 1 ∧
      ∃ s₁ s₂ s₃ : ℚ, (sendRequest uniform resp).sleeps = [s₁, s₂, s₃] ∧
        (0 ≤ s₁ ∧ s₁ ≤ min MAX_BACKOFF_SECONDS (BASE_TIME * 2 ^ 1)) ∧
        (0 ≤ s₂ ∧ s₂ ≤ min MAX_BACKOFF_SECONDS (BASE_TIME * 2 ^ 2)) ∧
        (0 ≤ s₃ ∧ s₃ ≤ min MAX_BACKOFF_SECONDS (BASE_TIME * 2 ^ 3))) ∧
    (∀ resp : Nat → AttemptResult, ∀ c : Nat, resp 0 = .httpError c →
      ¬(c = 429 ∨ c = 500) → sendRequest uniform resp = ⟨.fatalHttp c, [], 1⟩) ∧
    (∀ resp : Nat → AttemptResult, resp 0 = .otherError →
      sendRequest uniform resp = ⟨.fatalOther, [], 1⟩) := by
  have hbound : ∀ m : Nat, (0 : ℚ) ≤ min MAX_BACKOFF_SECONDS (BASE_TIME * 2 ^ m) := by
    intro m
    simp only [MAX_BACKOFF_SECONDS, BASE_TIME, le_min_iff]
    constructor
    · norm_num
    · positivity
  refine ⟨?_, ?_, ?_⟩
  · intro resp hr
    have step : ∀ i, ∃ c, resp i = .httpError c ∧ (c = 429 ∨ c = 500) := by
      intro i
      rcases hr i with h | h
      · exact ⟨429, h, Or.inl rfl⟩
      · exact ⟨500, h, Or.inr rfl⟩
    obtain ⟨c0, h0, hc0⟩ := step 0
    obtain ⟨c1, h1, hc1⟩ := step 1
    obtain ⟨c2, h2, hc2⟩ := step 2
    obtain ⟨c3, h3, hc3⟩ := step 3
    have e3 : sendRequestFrom uniform resp 3 3 = ⟨.exhausted, [], 1⟩ :=
      sendRequestFrom_exhaust uniform resp 3 3 c3 h3 hc3 (by decide)
    have e2 := sendRequestFrom_retry_step uniform resp 2 2 c2 h2 hc2 (by decide)
    rw [e3] at e2
    have e1 := sendRequestFrom_retry_step uniform resp 1 1 c1 h1 hc1 (by decide)
    rw [e2] at e1
    have e0 := sendRequestFrom_retry_step uniform resp 0 0 c0 h0 hc0 (by decide)
    rw [e1] at e0
    have hsend : sendRequest uniform resp =
        ⟨.exhausted,
          [uniform 0 (min MAX_BACKOFF_SECONDS (BASE_TIME * 2 ^ 1)),
            uniform 0 (min MAX_BACKOFF_SECONDS (BASE_TIME * 2 ^ 2)),
            uniform 0 (min MAX_BACKOFF_SECONDS (BASE_TIME * 2 ^ 3))], 4⟩ := by
      rw [sendRequest, e0]
    refine ⟨by rw [hsend], by rw [hsend]; rfl, by rw [hsend]; rfl, ?_⟩
    exact ⟨_, _, _, by rw [hsend], hu _ (hbound 1), hu _ (hbound 2), hu _ (hbound 3)⟩
  · intro resp c h0 hc
    rw [sendRequest, sendRequestFrom, h0]
    simp [hc]
  · intro resp h0
    rw [sendRequest, sendRequestFrom, h0]

/-- Witness for `send_request_retry_policy` at concrete inputs: the
always-429 client exhausts after 4 attempts, and a 404 client fails after
one attempt. -/
theorem send_request_retry_policy_witness :
    (Telemetry.sendRequest (fun a _ => a) (fun _ => .httpError 429)).outcome =
        Telemetry.Outcome.exhausted ∧
    (Telemetry.sendRequest (fun a _ => a) (fun _ => .httpError 429)).numAttempts = 4 ∧
    Telemetry.sendRequest (fun a _ => a) (fun _ => .httpError 404) =
      ⟨Telemetry.Outcome.fatalHttp 404, [], 1⟩ := by
  have h := send_request_retry_policy (fun a _ => a)
    (by intro b hb; exact ⟨le_refl 0, hb⟩)
  have h1 := h.1 (fun _ => .httpError 429) (fun i => Or.inl rfl)
  exact ⟨h1.1, h1.2.1, h.2.1 (fun _ => .httpError 404) 404 rfl (by decide)⟩

open Telemetry in
/-- C10: a `TelemetryClient` constructed with `telemetry.opt_out` set
creates no event queue and starts no background thread, and every
recording operation (`record_event`, `record_error`,
`record_hashing_summary`, `record_upload_summary`) on an opted-out client
leaves the client unchanged, enqueueing and sending nothing. -/
theorem telemetry_opt_out_noop :
    (initTelemetryClient true).event_queue = none ∧
    (initTelemetryClient true).processing_thread_started = false ∧
    ∀ c : TelemetryClient, c.telemetry_opted_out = true →
      (∀ ty details, record_event c ty details = c) ∧
      (∀ details ex, record_error c details ex = c) ∧
      (∀ s g, record_hashing_summary c s g = c) ∧
      (∀ s g, record_upload_summary c s g = c) := by
  refine ⟨rfl, rfl, ?_⟩
  intro c hc
  have hput : ∀ e, put_telemetry_record c e = c := by
    intro e
    simp [put_telemetry_record, hc]
  exact ⟨fun _ _ => hput _, fun _ _ => hput _, fun _ _ => hput _, fun _ _ => hput _⟩

/-- Witness for `telemetry_opt_out_noop`: recording an event on a freshly
constructed opted-out client is a no-op. -/
theorem telemetry_opt_out_noop_witness :
    Telemetry.record_event (Telemetry.initTelemetryClient true) "t" [] =
      Telemetry.initTelemetryClient true :=
  (telemetry_opt_out_noop.2.2 (Telemetry.initTelemetryClient true) rfl).1 "t" []

namespace JobAttachments

/-- C8: the human-readable file-size formatter maps the claimed table of
byte counts exactly: decimal power-of-1000 units, two-decimal rounding
with the 999995 boundary carrying into the next unit, and a `.0`
minimum. -/
theorem human_readable_file_size_table :
    human_readable_file_size 999 = "999.0 B" ∧
    human_readable_file_size 1000 = "1.0 KB" ∧
    human_readable_file_size 999994 = "999.99 KB" ∧
    human_readable_file_size 999995 = "1.0 MB" ∧
    human_readable_file_size 1000000000000 = "1.0 TB" ∧
    human_readable_file_size 1000000000000000000 = "1000.0 PB" := by
  refine ⟨?_, ?_, ?_, ?_, ?_, ?_⟩ <;> rfl

/-- C9: `get_attachments` and `get_s3_settings` return `none` when the
referenced job or queue is missing or carries no attachments/settings
(`j.attachments`/`q.jobAttachmentSettings` may themselves be `none`), and
return the stored value unchanged when it exists. -/
theorem lookup_helpers_absence :
    (∀ get_job : String → String → String → Option Job, ∀ farm queue job,
      (get_job farm queue job = none → get_attachments get_job farm queue job = none) ∧
      ∀ j, get_job farm queue job = some j →
        get_attachments get_job farm queue job = j.attachments) ∧
    (∀ get_queue : String → String → Option Queue, ∀ farm queue,
      (get_queue farm queue = none → get_s3_settings get_queue farm queue = none) ∧
      ∀ q, get_queue farm queue = some q →
        get_s3_settings get_queue farm queue = q.jobAttachmentSettings) := by
  constructor
  · intro g farm queue job
    constructor
    · intro h
      simp [get_attachments, h]
    · intro j h
      simp [get_attachments, h]
  · intro g farm queue
    constructor
    · intro h
      simp [get_s3_settings, h]
    · intro q h
      simp [get_s3_settings, h]

/-- Witness for `lookup_helpers_absence`: a missing job yields `none`
attachments and an existing queue returns its stored settings unchanged. -/
theorem lookup_helpers_absence_witness :
    get_attachments (fun _ _ _ => none) "farm-1" "queue-1" "job-1" = none ∧
    get_s3_settings (fun _ _ => some ⟨"queue-1", "q", "farm-1", some ⟨"bkt", "assetRoot"⟩⟩)
        "farm-1" "queue-1" = some ⟨"bkt", "assetRoot"⟩ :=
  ⟨(lookup_helpers_absence.1 (fun _ _ _ => none) "farm-1" "queue-1" "job-1").1 rfl,
    (lookup_helpers_absence.2 (fun _ _ => some ⟨"queue-1", "q", "farm-1",
      some ⟨"bkt", "assetRoot"⟩⟩) "farm-1" "queue-1").2 _ rfl⟩

/-- Splitting a list by a Boolean predicate splits its length. -/
theorem length_filter_partition {α : Type} (p : α → Bool) (l : List α) :
    (l.filter p).length + (l.filter fun a => !p a).length = l.length := by
  induction l with
  | nil => rfl
  | cons a t ih =>
    cases h : p a <;> simp [List.filter_cons, h] <;> omega

/-- Splitting a list by a Boolean predicate splits the sum of any
numeric projection. -/
theorem sum_filter_partition {α : Type} (f : α → Nat) (p : α → Bool) (l : List α) :
    ((l.filter p).map f).sum + ((l.filter fun a => !p a).map f).sum = (l.map f).sum := by
  induction l with
  | nil => rfl
  | cons a t ih =>
    cases h : p a <;> simp [List.filter_cons, h] <;> omega

/-- `lexLeChars` is total. -/
theorem lexLeChars_total : ∀ as bs, lexLeChars as bs = true ∨ lexLeChars bs as = true := by
  intro as
  induction as with
  | nil => intro bs; exact Or.inl rfl
  | cons a as ih =>
    intro bs
    cases bs with
    | nil => exact Or.inr rfl
    | cons b bs =>
      by_cases h1 : a.toNat < b.toNat
      · exact Or.inl (by simp [lexLeChars, h1])
      · by_cases h2 : b.toNat < a.toNat
        · exact Or.inr (by simp [lexLeChars, h2])
        · rcases ih bs with h | h
          · exact Or.inl (by simp [lexLeChars, h1, h2, h])
          · exact Or.inr (by simp [lexLeChars, h1, h2, h])

/-- `lexLeChars` is transitive. -/
theorem lexLeChars_trans : ∀ as bs cs, lexLeChars as bs = true →
    lexLeChars bs cs = true → lexLeChars as cs = true := by
  intro as
  induction as with
  | nil => intro bs cs _ _; rfl
  | cons a as ih =>
    intro bs cs hab hbc
    cases bs with
    | nil => simp [lexLeChars] at hab
    | cons b bs =>
      cases cs with
      | nil => simp [lexLeChars] at hbc
      | cons c cs =>
        have hab' : a.toNat < b.toNat ∨
            (a.toNat = b.toNat ∧ lexLeChars as bs = true) := by
          by_cases h1 : a.toNat < b.toNat
          · exact Or.inl h1
          · by_cases h2 : b.toNat < a.toNat
            · simp [lexLeChars, h1, h2] at hab
            · exact Or.inr ⟨by omega, by simpa [lexLeChars, h1, h2] using hab⟩
        have hbc' : b.toNat < c.toNat ∨
            (b.toNat = c.toNat ∧ lexLeChars bs cs = true) := by
          by_cases h1 : b.toNat < c.toNat
          · exact Or.inl h1
          · by_cases h2 : c.toNat < b.toNat
            · simp [lexLeChars, h1, h2] at hbc
            · exact Or.inr ⟨by omega, by simpa [lexLeChars, h1, h2] using hbc⟩
        rcases hab' with h | ⟨h, htl⟩ <;> rcases hbc' with h' | ⟨h', htl'⟩
        · simp [lexLeChars, show a.toNat < c.toNat by omega]
        · simp [lexLeChars, show a.toNat < c.toNat by omega]
        · simp [lexLeChars, show a.toNat < c.toNat by omega]
        · have hn1 : ¬a.toNat < c.toNat := by omega
          have hn2 : ¬c.toNat < a.toNat := by omega
          simpa [lexLeChars, hn1, hn2] using ih bs cs htl htl'

/-- `lexLeChars` is antisymmetric. -/
theorem lexLeChars_antisymm : ∀ as bs, lexLeChars as bs = true →
    lexLeChars bs as = true → as = bs := by
  intro as
  induction as with
  | nil =>
    intro bs _ h2
    cases bs with
    | nil => rfl
    | cons b bs => simp [lexLeChars] at h2
  | cons a as ih =>
    intro bs h1 h2
    cases bs with
    | nil => simp [lexLeChars] at h1
    | cons b bs =>
      have hab : ¬a.toNat < b.toNat := by
        intro h
        simp [lexLeChars, h, Nat.lt_asymm h] at h2
      have hba : ¬b.toNat < a.toNat := by
        intro h
        simp [lexLeChars, h, Nat.lt_asymm h] at h1
      have hnat : a.toNat = b.toNat := by omega
      have hch : a = b := Char.ext (UInt32.ext hnat)
      subst hch
      have h1' : lexLeChars as bs = true := by simpa [lexLeChars, hab, hba] using h1
      have h2' : lexLeChars bs as = true := by simpa [lexLeChars, hab, hba] using h2
      rw [ih bs h1' h2']

/-- `pathLe` is total. -/
theorem pathLe_total (a b : String) : pathLe a b = true ∨ pathLe b a = true :=
  lexLeChars_total a.data b.data

/-- `pathLe` is transitive. -/
theorem pathLe_trans (a b c : String) (h₁ : pathLe a b = true) (h₂ : pathLe b c = true) :
    pathLe a c = true :=
  lexLeChars_trans a.data b.data c.data h₁ h₂

/-- `pathLe` is antisymmetric. -/
theorem pathLe_antisymm (a b : String) (h₁ : pathLe a b = true)
    (h₂ : pathLe b a = true) : a = b := by
  cases a with
  | mk da =>
    cases b with
    | mk db =>
      have : da = db := lexLeChars_antisymm da db h₁ h₂
      rw [this]

/-- Two sorted lists that are permutations of each other and whose sort
keys are pairwise distinct are equal. -/
theorem sorted_perm_eq_of_nodup_key {α β : Type} (key : α → β) (le : β → β → Bool)
    (hanti : ∀ x y, le x y = true → le y x = true → x = y) :
    ∀ l₁ l₂ : List α, l₁.Perm l₂ →
      l₁.Sorted (fun a b => le (key a) (key b) = true) →
      l₂.Sorted (fun a b => le (key a) (key b) = true) →
      (l₁.map key).Nodup → l₁ = l₂ := by
  intro l₁
  induction l₁ with
  | nil =>
    intro l₂ hp _ _ _
    exact (hp.symm.eq_nil).symm
  | cons a t ih =>
    intro l₂ hp hs₁ hs₂ hnd
    cases l₂ with
    | nil => exact absurd hp.eq_nil (by simp)
    | cons b t₂ =>
      obtain ⟨ha₁, hs₁'⟩ := List.sorted_cons.mp hs₁
      obtain ⟨hb₂, hs₂'⟩ := List.sorted_cons.mp hs₂
      have hbmem : b ∈ a :: t := hp.symm.subset (List.mem_cons_self b t₂)
      have hamem : a ∈ b :: t₂ := hp.subset (List.mem_cons_self a t)
      have hnd0 : (key a :: t.map key).Nodup := by simpa using hnd
      have heq : a = b := by
        rcases List.mem_cons.mp hamem with h | h
        · exact h
        · rcases List.mem_cons.mp hbmem with h' | h'
          · exact h'.symm
          · exfalso
            have hab : le (key a) (key b) = true := ha₁ b h'
            have hba : le (key b) (key a) = true := hb₂ a h
            have hkey : key a = key b := hanti _ _ hab hba
            have hmem : key b ∈ t.map key := List.mem_map.mpr ⟨b, h', rfl⟩
            rw [← hkey] at hmem
            exact (List.nodup_cons.mp hnd0).1 hmem
      subst heq
      have hp' := hp.cons_inv
      rw [ih t₂ hp' hs₁' hs₂' (List.nodup_cons.mp hnd0).2]

/-- Canonical sorting of manifest entries is permutation-invariant when
the entry paths are pairwise distinct. -/
theorem sortEntries_eq_of_perm (es₁ es₂ : List ManifestPathEntry) (hp : es₁.Perm es₂)
    (hnd : (es₁.map fun e => e.path).Nodup) : sortEntries es₁ = sortEntries es₂ := by
  haveI : IsTotal ManifestPathEntry entryLE := ⟨fun a b => pathLe_total a.path b.path⟩
  haveI : IsTrans ManifestPathEntry entryLE :=
    ⟨fun a b c h₁ h₂ => pathLe_trans a.path b.path c.path h₁ h₂⟩
  apply sorted_perm_eq_of_nodup_key (fun e => e.path) pathLe
    (fun x y hx hy => pathLe_antisymm x y hx hy)
  · exact ((List.perm_insertionSort entryLE es₁).trans hp).trans
      (List.perm_insertionSort entryLE es₂).symm
  · exact List.sorted_insertionSort entryLE es₁
  · exact List.sorted_insertionSort entryLE es₂
  · have hm : (es₁.map fun e => e.path).Perm
        ((sortEntries es₁).map fun e => e.path) :=
      ((List.perm_insertionSort entryLE es₁).map _).symm
    exact hm.nodup_iff.mp hnd

/-- C2 (amended): the canonical manifest serialization lists entries in a
deterministic order sorted by relative path, so two manifests with the
same set of entries (with pairwise-distinct paths) serialize to
byte-identical text. -/
theorem manifest_encode_canonical (hash_alg : String) (es₁ es₂ : List ManifestPathEntry)
    (hp : es₁.Perm es₂) (hnd : (es₁.map fun e => e.path).Nodup) :
    encodeManifest hash_alg es₁ = encodeManifest hash_alg es₂ := by
  unfold encodeManifest
  rw [sortEntries_eq_of_perm es₁ es₂ hp hnd, (hp.map fun e => e.size).sum_eq]

/-- Witness for `manifest_encode_canonical`: two insertion orders of the
same two entries serialize identically. -/
theorem manifest_encode_canonical_witness :
    encodeManifest "xxh128" [⟨"a.txt", "h1", 1, 10⟩, ⟨"b.txt", "h2", 2, 20⟩] =
      encodeManifest "xxh128" [⟨"b.txt", "h2", 2, 20⟩, ⟨"a.txt", "h1", 1, 10⟩] :=
  manifest_encode_canonical "xxh128" _ _ (by decide) (by decide)

set_option maxRecDepth 8000 in
/-- Counterexample to C2 as stated: on the two entries of
`test_sync_outputs` the canonical serialization (pinned byte-for-byte by
that test, with the `hash2` entry first because its path sorts first) is
not the serialization sorted by content hash then path, which would list
the `hash1` entry first. -/
theorem manifest_encode_not_sorted_by_hash :
    encodeManifest "xxh128"
        [⟨"test/outputs/test.txt", "hash1", 12, 1111⟩,
          ⟨"test/outputs/inner_dir/test2.txt", "hash2", 16, 2222⟩] =
      "\x7b\"hashAlg\":\"xxh128\",\"manifestVersion\":\"2023-03-03\",\"paths\":[\x7b\"hash\":\"hash2\",\"mtime\":2222,\"path\":\"test/outputs/inner_dir/test2.txt\",\"size\":16\x7d,\x7b\"hash\":\"hash1\",\"mtime\":1111,\"path\":\"test/outputs/test.txt\",\"size\":12\x7d],\"totalSize\":28\x7d" ∧
    encodeManifest "xxh128"
        [⟨"test/outputs/test.txt", "hash1", 12, 1111⟩,
          ⟨"test/outputs/inner_dir/test2.txt", "hash2", 16, 2222⟩] ≠
      encodeManifestByHash "xxh128"
        [⟨"test/outputs/test.txt", "hash1", 12, 1111⟩,
          ⟨"test/outputs/inner_dir/test2.txt", "hash2", 16, 2222⟩] := by
  constructor
  · decide
  · decide

/-- C4 (amended): the output manifest of every `sync_outputs` run is the
canonical encoding of the discovered files, uploaded under
`<manifests>/<farm>/<queue>/<job>/<step>/<task>/<isoTimestamp>_<sessionAction>/<contentHash>_output.<hashAlg>`
— the final key segment before the file name is the ISO timestamp,
an underscore, then the session-action identifier. -/
theorem sync_outputs_manifest_key_layout (s : JobAttachmentS3Settings)
    (farm_id queue_id job_id step_id task_id session_action_id iso_timestamp
      hash_alg : String)
    (existing : List String) (files : List ManifestPathEntry)
    (hash_data : String → String) (t : ℚ) :
    (sync_outputs s farm_id queue_id job_id step_id task_id session_action_id
        iso_timestamp hash_alg existing files hash_data t).manifest_key =
      manifestPath s ++ "/" ++ farm_id ++ "/" ++ queue_id ++ "/" ++ job_id ++ "/" ++
        step_id ++ "/" ++ task_id ++ "/" ++ iso_timestamp ++ "_" ++ session_action_id ++
        "/" ++ hash_data (encodeManifest hash_alg files) ++ "_output." ++ hash_alg ∧
    (sync_outputs s farm_id queue_id job_id step_id task_id session_action_id
        iso_timestamp hash_alg existing files hash_data t).manifest_body =
      encodeManifest hash_alg files :=
  ⟨rfl, rfl⟩

/-- Counterexample to C4 as stated: at the inputs of `test_sync_outputs`
the manifest key equals the test's expected key, whose timestamped segment
is `2023-07-13T14:35:26.123456Z_session-action-1` — the ISO timestamp
comes first, not the session-action identifier as the claim says. -/
theorem output_manifest_key_timestamp_first :
    output_manifest_key ⟨"test-bucket", "assetRoot"⟩
        "farm-1234567890abcdefghijklmnopqrstuv"
        "queue-01234567890123456789012345678901"
        "job-01234567890123456789012345678901" "test_step4" "test_task4"
        "session-action-1" "2023-07-13T14:35:26.123456Z" "hash3" "xxh128" =
      "assetRoot/Manifests/farm-1234567890abcdefghijklmnopqrstuv/queue-01234567890123456789012345678901/job-01234567890123456789012345678901/test_step4/test_task4/2023-07-13T14:35:26.123456Z_session-action-1/hash3_output.xxh128" ∧
    output_manifest_key ⟨"test-bucket", "assetRoot"⟩
        "farm-1234567890abcdefghijklmnopqrstuv"
        "queue-01234567890123456789012345678901"
        "job-01234567890123456789012345678901" "test_step4" "test_task4"
        "session-action-1" "2023-07-13T14:35:26.123456Z" "hash3" "xxh128" ≠
      output_manifest_key_claimed ⟨"test-bucket", "assetRoot"⟩
        "farm-1234567890abcdefghijklmnopqrstuv"
        "queue-01234567890123456789012345678901"
        "job-01234567890123456789012345678901" "test_step4" "test_task4"
        "session-action-1" "2023-07-13T14:35:26.123456Z" "hash3" "xxh128" := by
  constructor
  · rfl
  · decide

/-- C5: in every `sync_outputs` run, a discovered file whose content hash
already exists in the store is not uploaded again, while a file whose hash
is absent is uploaded; skipped and processed files/bytes are counted
exactly as the partition of the discovered files by store existence. -/
theorem sync_outputs_dedup (s : JobAttachmentS3Settings)
    (farm_id queue_id job_id step_id task_id session_action_id iso_timestamp
      hash_alg : String)
    (existing : List String) (files : List ManifestPathEntry)
    (hash_data : String → String) (t : ℚ) (f : ManifestPathEntry) (hf : f ∈ files) :
    (existing.contains f.hash = true →
      f.hash ∉ (sync_outputs s farm_id queue_id job_id step_id task_id
        session_action_id iso_timestamp hash_alg existing files hash_data
        t).content_uploads) ∧
    (existing.contains f.hash = false →
      f.hash ∈ (sync_outputs s farm_id queue_id job_id step_id task_id
        session_action_id iso_timestamp hash_alg existing files hash_data
        t).content_uploads) ∧
    (sync_outputs s farm_id queue_id job_id step_id task_id session_action_id
        iso_timestamp hash_alg existing files hash_data t).stats.skipped_files =
      (files.filter fun g => existing.contains g.hash).length ∧
    (sync_outputs s farm_id queue_id job_id step_id task_id session_action_id
        iso_timestamp hash_alg existing files hash_data t).stats.skipped_bytes =
      ((files.filter fun g => existing.contains g.hash).map fun g => g.size).sum ∧
    (sync_outputs s farm_id queue_id job_id step_id task_id session_action_id
        iso_timestamp hash_alg existing files hash_data t).stats.processed_files =
      (files.filter fun g => !existing.contains g.hash).length ∧
    (sync_outputs s farm_id queue_id job_id step_id task_id session_action_id
        iso_timestamp hash_alg existing files hash_data t).stats.processed_bytes =
      ((files.filter fun g => !existing.contains g.hash).map fun g => g.size).sum := by
  refine ⟨?_, ?_, rfl, rfl, rfl, rfl⟩
  · intro hmem hcontra
    simp only [sync_outputs, List.mem_map, List.mem_filter] at hcontra
    obtain ⟨g, ⟨hg1, hg2⟩, hgh⟩ := hcontra
    rw [hgh, hmem] at hg2
    simp at hg2
  · intro hmem
    simp only [sync_outputs, List.mem_map, List.mem_filter]
    exact ⟨f, ⟨hf, by rw [hmem]; rfl⟩, rfl⟩

/-- Witness for `sync_outputs_dedup`: with `hash1` already in the store,
the `hash1` file is not uploaded again and the new `hash2` file is. -/
theorem sync_outputs_dedup_witness :
    "hash1" ∉ (sync_outputs ⟨"test-bucket", "assetRoot"⟩ "farm-1" "queue-1" "job-1"
      "step-1" "task-1" "session-action-1" "2023-07-13T14:35:26.123456Z" "xxh128"
      ["hash1"]
      [⟨"test/outputs/test.txt", "hash1", 12, 1111⟩,
        ⟨"test/outputs/inner_dir/test2.txt", "hash2", 16, 2222⟩]
      (fun _ => "hash3") 1).content_uploads ∧
    "hash2" ∈ (sync_outputs ⟨"test-bucket", "assetRoot"⟩ "farm-1" "queue-1" "job-1"
      "step-1" "task-1" "session-action-1" "2023-07-13T14:35:26.123456Z" "xxh128"
      ["hash1"]
      [⟨"test/outputs/test.txt", "hash1", 12, 1111⟩,
        ⟨"test/outputs/inner_dir/test2.txt", "hash2", 16, 2222⟩]
      (fun _ => "hash3") 1).content_uploads := by
  constructor
  · exact (sync_outputs_dedup ⟨"test-bucket", "assetRoot"⟩ "farm-1" "queue-1" "job-1"
      "step-1" "task-1" "session-action-1" "2023-07-13T14:35:26.123456Z" "xxh128"
      ["hash1"]
      [⟨"test/outputs/test.txt", "hash1", 12, 1111⟩,
        ⟨"test/outputs/inner_dir/test2.txt", "hash2", 16, 2222⟩]
      (fun _ => "hash3") 1 ⟨"test/outputs/test.txt", "hash1", 12, 1111⟩
      (by decide)).1 (by decide)
  · exact ((sync_outputs_dedup ⟨"test-bucket", "assetRoot"⟩ "farm-1" "queue-1" "job-1"
      "step-1" "task-1" "session-action-1" "2023-07-13T14:35:26.123456Z" "xxh128"
      ["hash1"]
      [⟨"test/outputs/test.txt", "hash1", 12, 1111⟩,
        ⟨"test/outputs/inner_dir/test2.txt", "hash2", 16, 2222⟩]
      (fun _ => "hash3") 1 ⟨"test/outputs/inner_dir/test2.txt", "hash2", 16, 2222⟩
      (by decide)).2.1) (by decide)

/-- Binding a successful `Except` computation applies the continuation. -/
theorem except_bind_ok {ε α β : Type} (a : α) (f : α → Except ε β) :
    (Except.ok a >>= f) = f a := rfl

/-- Binding a failed `Except` computation propagates the error. -/
theorem except_bind_error {ε α β : Type} (e : ε) (f : α → Except ε β) :
    ((Except.error e : Except ε α) >>= f) = Except.error e := rfl

/-- Fetching the manifests of properties that declare no input manifest
yields no entries. -/
theorem gather_entries_none (fetch : String → Except SyncError (List ManifestPathEntry)) :
    ∀ ms : List ManifestProperties, (∀ m ∈ ms, m.inputManifestPath = none) →
      gather_entries fetch ms = .ok [] := by
  intro ms
  induction ms with
  | nil => intro _; rfl
  | cons m rest ih =>
    intro h
    have hm : m.inputManifestPath = none := h m (List.mem_cons_self m rest)
    have ht := ih fun x hx => h x (List.mem_cons_of_mem m hx)
    simp [gather_entries, ht, hm, except_bind_ok]

/-- Downloading an empty entry set produces the all-zero statistics. -/
theorem download_stats_nil (present : List String) (t : ℚ) :
    download_stats [] present t = zeroStats t := by
  unfold download_stats zeroStats
  simp [transfer_rate]

/-- C3 (amended): a `sync_inputs` call whose attachments declare no input
manifests succeeds with the all-zero summary statistics and one
path-mapping rule per declared root (not an empty rule list). -/
theorem sync_inputs_no_required_assets (s : JobAttachmentS3Settings)
    (att : Attachments) (queue_id job_id session_dir : String)
    (dest_dir_name : ManifestProperties → String)
    (fetch : String → Except SyncError (List ManifestPathEntry))
    (storage_rules : List (String × String)) (fus3_available on_linux : Bool)
    (present : List String) (t : ℚ)
    (hnone : ∀ m ∈ att.manifests, m.inputManifestPath = none) :
    ∃ mounted : Bool,
      sync_inputs s att queue_id job_id session_dir dest_dir_name fetch
          storage_rules fus3_available on_linux present t =
        .ok ⟨zeroStats t,
          input_mapping_rules session_dir dest_dir_name storage_rules att.manifests,
          mounted⟩ := by
  have hg := gather_entries_none fetch att.manifests hnone
  by_cases hcond : att.fileSystem = .virtualized ∧ fus3_available ∧ on_linux
  · exact ⟨true, by simp [sync_inputs, hg, hcond]⟩
  · exact ⟨false, by simp [sync_inputs, hg, hcond, download_stats_nil]⟩

/-- Witness for `sync_inputs_no_required_assets` at the configuration of
`test_sync_inputs_no_inputs_successful`. -/
theorem sync_inputs_no_required_assets_witness :
    ∃ mounted : Bool,
      sync_inputs ⟨"test-bucket", "assetRoot"⟩
          ⟨[⟨"/tmp", .posix, none, none, ["test/outputs"]⟩], .copied⟩
          "queue-1" "job-1" "/session" (fun _ => "assetroot-27bggh78dd2b568ab123")
          (fun _ => .ok []) [] false true [] 1 =
        .ok ⟨zeroStats 1,
          input_mapping_rules "/session" (fun _ => "assetroot-27bggh78dd2b568ab123") []
            [⟨"/tmp", .posix, none, none, ["test/outputs"]⟩], mounted⟩ :=
  sync_inputs_no_required_assets ⟨"test-bucket", "assetRoot"⟩
    ⟨[⟨"/tmp", .posix, none, none, ["test/outputs"]⟩], .copied⟩
    "queue-1" "job-1" "/session" (fun _ => "assetroot-27bggh78dd2b568ab123")
    (fun _ => .ok []) [] false true [] 1 (by decide)

/-- Counterexample to C3 as stated: on the no-input-manifest attachments
of `test_sync_inputs_no_inputs_successful` the call succeeds with all-zero
statistics but returns one path-mapping rule for the declared root — the
rule list is not empty. -/
theorem sync_inputs_no_inputs_rules_not_empty :
    sync_inputs ⟨"test-bucket", "assetRoot"⟩
        ⟨[⟨"/tmp", .posix, none, none, ["test/outputs"]⟩], .copied⟩
        "queue-1" "job-1" "/session" (fun _ => "assetroot-27bggh78dd2b568ab123")
        (fun _ => .ok []) [] false true [] 1 =
      .ok ⟨zeroStats 1,
        [⟨"posix", "/tmp", "/session/assetroot-27bggh78dd2b568ab123"⟩], false⟩ ∧
    [PathMappingRule.mk "posix" "/tmp" "/session/assetroot-27bggh78dd2b568ab123"] ≠
      ([] : List PathMappingRule) := by
  constructor
  · simp [sync_inputs, gather_entries, input_mapping_rules, coveredByStorageProfile,
      PathFormat.toStr, download_stats, zeroStats, transfer_rate, except_bind_ok]
  · decide

/-- C6: when the VFS mount helper cannot be located
(`Fus3ExecutableMissingError`, modelled as `fus3_available = false`),
`sync_inputs` performs no mount and falls back to eager download, still
succeeding with the normal statistics and path-mapping rules. -/
theorem sync_inputs_mount_helper_missing (s : JobAttachmentS3Settings)
    (att : Attachments) (queue_id job_id session_dir : String)
    (dest_dir_name : ManifestProperties → String)
    (fetch : String → Except SyncError (List ManifestPathEntry))
    (storage_rules : List (String × String)) (on_linux : Bool)
    (present : List String) (t : ℚ) (entries : List ManifestPathEntry)
    (hfetch : gather_entries fetch att.manifests = .ok entries) :
    sync_inputs s att queue_id job_id session_dir dest_dir_name fetch storage_rules
        false on_linux present t =
      .ok ⟨download_stats entries present t,
        input_mapping_rules session_dir dest_dir_name storage_rules att.manifests,
        false⟩ := by
  simp [sync_inputs, hfetch]

/-- Witness for `sync_inputs_mount_helper_missing`: a virtual-filesystem
job with one input manifest falls back to eager download when the helper
is missing. -/
theorem sync_inputs_mount_helper_missing_witness :
    sync_inputs ⟨"test-bucket", "assetRoot"⟩
        ⟨[⟨"/tmp", .posix, none, some "manifest_input.xxh128", ["test/outputs"]⟩],
          .virtualized⟩
        "queue-1" "job-1" "/session" (fun _ => "assetroot-27bggh78dd2b568ab123")
        (fun _ => .ok [⟨"a.txt", "h1", 3, 7⟩]) [] false true [] 1 =
      .ok ⟨download_stats [⟨"a.txt", "h1", 3, 7⟩] [] 1,
        input_mapping_rules "/session" (fun _ => "assetroot-27bggh78dd2b568ab123") []
          [⟨"/tmp", .posix, none, some "manifest_input.xxh128", ["test/outputs"]⟩],
        false⟩ :=
  sync_inputs_mount_helper_missing ⟨"test-bucket", "assetRoot"⟩
    ⟨[⟨"/tmp", .posix, none, some "manifest_input.xxh128", ["test/outputs"]⟩],
      .virtualized⟩
    "queue-1" "job-1" "/session" (fun _ => "assetroot-27bggh78dd2b568ab123")
    (fun _ => .ok [⟨"a.txt", "h1", 3, 7⟩]) [] true [] 1 [⟨"a.txt", "h1", 3, 7⟩] rfl

/-- C7: every summary statistics returned by a sync operation satisfies
`processed + skipped = total`, both for file counts and for byte counts —
for `sync_outputs` always, and for every successful `sync_inputs`. -/
theorem summary_statistics_partition (s : JobAttachmentS3Settings)
    (farm_id queue_id job_id step_id task_id session_action_id iso_timestamp
      hash_alg : String)
    (existing : List String) (files : List ManifestPathEntry)
    (hash_data : String → String) (t : ℚ)
    (att : Attachments) (qid jid sdir : String)
    (ddn : ManifestProperties → String)
    (fetch : String → Except SyncError (List ManifestPathEntry))
    (srules : List (String × String)) (fus3_available on_linux : Bool)
    (present : List String) (t₂ : ℚ) :
    ((sync_outputs s farm_id queue_id job_id step_id task_id session_action_id
        iso_timestamp hash_alg existing files hash_data t).stats.processed_files +
      (sync_outputs s farm_id queue_id job_id step_id task_id session_action_id
        iso_timestamp hash_alg existing files hash_data t).stats.skipped_files =
      (sync_outputs s farm_id queue_id job_id step_id task_id session_action_id
        iso_timestamp hash_alg existing files hash_data t).stats.total_files ∧
     (sync_outputs s farm_id queue_id job_id step_id task_id session_action_id
        iso_timestamp hash_alg existing files hash_data t).stats.processed_bytes +
      (sync_outputs s farm_id queue_id job_id step_id task_id session_action_id
        iso_timestamp hash_alg existing files hash_data t).stats.skipped_bytes =
      (sync_outputs s farm_id queue_id job_id step_id task_id session_action_id
        iso_timestamp hash_alg existing files hash_data t).stats.total_bytes) ∧
    ∀ res : SyncInputsResult,
      sync_inputs s att qid jid sdir ddn fetch srules fus3_available on_linux
        present t₂ = .ok res →
      res.stats.processed_files + res.stats.skipped_files = res.stats.total_files ∧
      res.stats.processed_bytes + res.stats.skipped_bytes = res.stats.total_bytes := by
  constructor
  · constructor
    · show (files.filter fun g => !existing.contains g.hash).length +
        (files.filter fun g => existing.contains g.hash).length = files.length
      rw [Nat.add_comm]
      exact length_filter_partition (fun g => existing.contains g.hash) files
    · show ((files.filter fun g => !existing.contains g.hash).map fun g => g.size).sum +
        ((files.filter fun g => existing.contains g.hash).map fun g => g.size).sum =
        (files.map fun g => g.size).sum
      rw [Nat.add_comm]
      exact sum_filter_partition (fun g => g.size) (fun g => existing.contains g.hash) files
  · intro res hres
    cases hgather : gather_entries fetch att.manifests with
    | error e => simp [sync_inputs, hgather, except_bind_error] at hres
    | ok entries =>
      unfold sync_inputs at hres
      rw [hgather, except_bind_ok] at hres
      split at hres
      · injection hres with h
        subst h
        simp [zeroStats]
      · injection hres with h
        subst h
        constructor
        · show (entries.filter fun g => !present.contains g.hash).length +
            (entries.filter fun g => present.contains g.hash).length = entries.length
          rw [Nat.add_comm]
          exact length_filter_partition (fun g => present.contains g.hash) entries
        · show ((entries.filter fun g => !present.contains g.hash).map fun g => g.size).sum +
            ((entries.filter fun g => present.contains g.hash).map fun g => g.size).sum =
            (entries.map fun g => g.size).sum
          rw [Nat.add_comm]
          exact sum_filter_partition (fun g => g.size) (fun g => present.contains g.hash)
            entries

/-- Witness for `summary_statistics_partition` at concrete inputs: a
two-file output sync (one skipped, one processed) and a successful input
sync both satisfy the partition law. -/
theorem summary_statistics_partition_witness :
    ((sync_outputs ⟨"test-bucket", "assetRoot"⟩ "farm-1" "queue-1" "job-1" "step-1"
        "task-1" "session-action-1" "iso" "xxh128" ["hash1"]
        [⟨"p1.txt", "hash1", 12, 1111⟩, ⟨"p2.txt", "hash2", 16, 2222⟩]
        (fun _ => "hash3") 1).stats.processed_files +
      (sync_outputs ⟨"test-bucket", "assetRoot"⟩ "farm-1" "queue-1" "job-1" "step-1"
        "task-1" "session-action-1" "iso" "xxh128" ["hash1"]
        [⟨"p1.txt", "hash1", 12, 1111⟩, ⟨"p2.txt", "hash2", 16, 2222⟩]
        (fun _ => "hash3") 1).stats.skipped_files =
      (sync_outputs ⟨"test-bucket", "assetRoot"⟩ "farm-1" "queue-1" "job-1" "step-1"
        "task-1" "session-action-1" "iso" "xxh128" ["hash1"]
        [⟨"p1.txt", "hash1", 12, 1111⟩, ⟨"p2.txt", "hash2", 16, 2222⟩]
        (fun _ => "hash3") 1).stats.total_files) ∧
    (SyncInputsResult.mk (download_stats [] [] 1)
        (input_mapping_rules "/session" (fun _ => "d") []
          [⟨"/tmp", .posix, none, none, ["test/outputs"]⟩]) false).stats.processed_files +
      (SyncInputsResult.mk (download_stats [] [] 1)
        (input_mapping_rules "/session" (fun _ => "d") []
          [⟨"/tmp", .posix, none, none, ["test/outputs"]⟩]) false).stats.skipped_files =
      (SyncInputsResult.mk (download_stats [] [] 1)
        (input_mapping_rules "/session" (fun _ => "d") []
          [⟨"/tmp", .posix, none, none, ["test/outputs"]⟩]) false).stats.total_files := by
  have h := summary_statistics_partition ⟨"test-bucket", "assetRoot"⟩ "farm-1" "queue-1"
    "job-1" "step-1" "task-1" "session-action-1" "iso" "xxh128" ["hash1"]
    [⟨"p1.txt", "hash1", 12, 1111⟩, ⟨"p2.txt", "hash2", 16, 2222⟩] (fun _ => "hash3") 1
    ⟨[⟨"/tmp", .posix, none, none, ["test/outputs"]⟩], .copied⟩ "queue-1" "job-1"
    "/session" (fun _ => "d") (fun _ => .ok []) [] false true [] 1
  exact ⟨h.1.1, (h.2 (SyncInputsResult.mk (download_stats [] [] 1)
    (input_mapping_rules "/session" (fun _ => "d") []
      [⟨"/tmp", .posix, none, none, ["test/outputs"]⟩]) false) rfl).1⟩

end JobAttachments

end DeadlineCloud
